import Mathlib

/-!
Verification of the sds011 reader (`go/cmd/sds011/main.go`): a shallow
embedding of the measurement scheduler loop, the burst aggregator, the output
formatter and the gauge updates, with theorems settling the specified
properties.

Modelling conventions:
* Go `float64` values that are exactly representable are carried as `ℚ`;
  every concrete value appearing in a theorem is chosen so that the Go
  computation on it is exact (sums of exactly-representable values divided by
  small integers), or is the exact rational value of the binary64 literal.
* Division mirrors IEEE-754: dividing by zero yields `NaN`/`±Inf`, captured by
  the `FVal` type, since the Go code divides by `float64(*samples)` unguarded.
* Instants are Unix seconds (`Int`); `time.Time.Format(time.RFC3339)` on a UTC
  instant and `Timestamp.Unix()` are embedded as string renderers.
* The per-cycle interaction with the device, stdout, stderr and the two
  prometheus gauges is recorded as an ordered event trace.
-/

/-- A single sensor reading, as returned by `sensor.Get()`
(`Point{PM25, PM10, Timestamp}` in the driver): two concentrations and a
timestamp (Unix seconds, UTC). -/
structure Reading where
  pm25 : ℚ
  pm10 : ℚ
  timestamp : Int
deriving DecidableEq, Repr

/-- A Go `float64` value as far as this program can produce one: a finite
value represented exactly as a rational, or one of the IEEE special values
that unguarded division can produce. -/
inductive FVal where
  | finite (q : ℚ)
  | nan
  | posInf
  | negInf
deriving DecidableEq, Repr

/-- IEEE-754 division of two finite values (`x / y` on Go `float64`s whose
exact values are `x` and `y`): division by zero yields `NaN` when the
numerator is zero, `±Inf` otherwise; the quotient of the claims' concrete
inputs is exactly representable, so the finite case is exact. -/
def goDiv (x y : ℚ) : FVal :=
  if y = 0 then
    if x = 0 then .nan
    else if 0 < x then .posInf
    else .negInf
  else .finite (x / y)

/-- Render a natural number with at least two digits (zero-padded), as Go's
`%02d`-style fields inside `%.2f` and RFC3339. -/
def pad2 (n : Nat) : String :=
  (if n < 10 then "0" else "") ++ toString n

/-- Render a year with four digits (all claim instances are four-digit
years, as Go's RFC3339 layout `2006`). -/
def pad4 (n : Nat) : String :=
  (if n < 10 then "000" else if n < 100 then "00" else if n < 1000 then "0" else "")
    ++ toString n

/-- Round `x` to the nearest integer, ties to even: the rounding Go's
`strconv` applies when formatting the exact binary value of a `float64`
with `%.2f` (after scaling by 100). -/
def roundHalfEven (x : ℚ) : ℤ :=
  let f := ⌊x⌋
  let r := x - f
  if r < 1/2 then f
  else if 1/2 < r then f + 1
  else if f % 2 = 0 then f else f + 1

/-- Go's `%.2f` applied to a finite `float64` whose exact value is `q`:
sign of the value, then the correctly rounded two-decimal rendering. -/
def fmtQ2 (q : ℚ) : String :=
  let sign := if q < 0 then "-" else ""
  let n := (roundHalfEven (100 * |q|)).toNat
  sign ++ toString (n / 100) ++ "." ++ pad2 (n % 100)

/-- Go's `%.2f` on a `float64`: `NaN` and infinities print as `NaN`,
`+Inf`, `-Inf`. -/
def fmtF2 : FVal → String
  | .finite q => fmtQ2 q
  | .nan => "NaN"
  | .posInf => "+Inf"
  | .negInf => "-Inf"

/-- Civil date from a day count since 1970-01-01 (proleptic Gregorian):
the classical era-based conversion Go's `time` package implements. Returns
(year, month, day). -/
def civilFromDays (z : Int) : Int × Nat × Nat :=
  let z := z + 719468
  let era : Int := z.fdiv 146097
  let doe : Nat := (z - era * 146097).toNat
  let yoe : Nat := (doe - doe / 1460 + doe / 36524 - doe / 146096) / 365
  let y : Int := (yoe : Int) + era * 400
  let doy : Nat := doe - (365 * yoe + yoe / 4 - yoe / 100)
  let mp : Nat := (5 * doy + 2) / 153
  let d : Nat := doy - (153 * mp + 2) / 5 + 1
  let m : Nat := if mp < 10 then mp + 3 else mp - 9
  (if m ≤ 2 then y + 1 else y, m, d)

/-- `time.Time.Format(time.RFC3339)` on a UTC instant given as Unix
seconds: `YYYY-MM-DDTHH:MM:SSZ`. -/
def rfc3339 (t : Int) : String :=
  let days := t.fdiv 86400
  let secs := (t.fmod 86400).toNat
  let (y, m, d) := civilFromDays days
  pad4 y.toNat ++ "-" ++ pad2 m ++ "-" ++ pad2 d ++ "T"
    ++ pad2 (secs / 3600) ++ ":" ++ pad2 (secs % 3600 / 60) ++ ":"
    ++ pad2 (secs % 60) ++ "Z"

/-- The timestamp string the loop body stores in `ts` for a successful
reading: `fmt.Sprintf("%v", point.Timestamp.Unix())` when `-unix` is set,
`point.Timestamp.Format(time.RFC3339)` otherwise (lines 110–114). -/
def tsFormat (unix : Bool) (t : Int) : String :=
  if unix then toString t else rfc3339 t

/-- The process configuration fixed by the flags: `*samples` (a Go `int`),
`*unix`, and the `-interval` flag's value (a `time.Duration`, i.e.
nanoseconds, line 36). Note that the loop never reads the flag's value: the
pointer returned by `flag.Duration` is never dereferenced (no `*interval`
occurs in the file), so `interval` carries no influence on the loop. -/
structure Config where
  samples : Int
  unix : Bool
  interval : Int
deriving DecidableEq, Repr

/-- One second as a `time.Duration` (nanoseconds): `1 * time.Second`. -/
def second : Int := 1000000000

/-- The package-level `var interval time.Duration` declared on line 33: it is
the only type-correct referent of the bare `interval` read on lines 123 and
125, and it is never assigned anywhere in the file (line 36's
`interval = flag.Duration(...)` redeclares the same package-level name — in
itself a Go compile error — and produces a `*time.Duration` that is never
dereferenced), so it permanently holds `time.Duration`'s zero value. -/
def intervalVar : Int := 0

/-- The mutable state of the inner sampling loop (lines 91–115): the two
running sums, the timestamp string `ts` (initially empty), the `log.Printf`
lines produced so far, and the number of `sensor.Get()` calls made. -/
structure BurstState where
  pm25 : ℚ
  pm10 : ℚ
  ts : String
  logs : List String
  readCalls : Nat
deriving DecidableEq, Repr

/-- The state at the top of the loop body: `var pm10, pm25 float64` and
`var ts string` are declared afresh each iteration (lines 92–93), so the
sums start at zero and `ts` at the empty string. -/
def initBurst : BurstState := ⟨0, 0, "", [], 0⟩

/-- One iteration of `for i := 0; i < *samples; i++` (lines 102–115): a
failed `sensor.Get()` logs `ERROR: sensor.Get: <err>` and `continue`s; a
successful one adds to both sums and overwrites `ts` with the formatted
timestamp. Either way exactly one read call is consumed. -/
def stepRead (unix : Bool) (s : BurstState) (r : Except String Reading) : BurstState :=
  match r with
  | .error e =>
      { s with logs := s.logs ++ ["ERROR: sensor.Get: " ++ e],
               readCalls := s.readCalls + 1 }
  | .ok p =>
      { s with pm25 := s.pm25 + p.pm25,
               pm10 := s.pm10 + p.pm10,
               ts := tsFormat unix p.timestamp,
               readCalls := s.readCalls + 1 }

/-- The whole sampling loop: `*samples` iterations (none when `*samples ≤ 0`,
since the Go loop condition `i < *samples` fails immediately), the `i`-th
consuming the `i`-th device response. -/
def runBurst (unix : Bool) (samples : Int) (reads : Nat → Except String Reading) :
    BurstState :=
  (List.range samples.toNat).foldl (fun s i => stepRead unix s (reads i)) initBurst

/-- The successful readings of a burst, in order: the subsequence of device
responses that did not fail. -/
def succReadings (samples : Int) (reads : Nat → Except String Reading) : List Reading :=
  (List.range samples.toNat).filterMap (fun i => (reads i).toOption)

/-- A device power command issued by the scheduler, or the blocking wait:
`sensor.Awake()`, `sensor.Sleep()`, and `time.Sleep(time.Until(t1.Add(interval)))`
which blocks until the wall clock reaches the given deadline. -/
inductive Cmd where
  | wake
  | sleep
  | waitUntil (deadline : Int)
deriving DecidableEq, Repr

/-- The two prometheus gauges, `pm25` and `pm10`. -/
inductive GaugeId where
  | pm25
  | pm10
deriving DecidableEq, Repr

/-- An observable event of one cycle of the main loop, in program order. -/
inductive Ev where
  | isAwakeQuery
  | cmd (c : Cmd)
  | captureTime (t : Int)
  | readCall (i : Nat)
  | logLine (s : String)
  | stdoutWrite (s : String)
  | gaugeSet (g : GaugeId) (v : FVal)
deriving DecidableEq, Repr

/-- Whether an event is a device power command (wake or sleep). -/
def Ev.isPowerCmd : Ev → Bool
  | .cmd .wake => true
  | .cmd .sleep => true
  | _ => false

/-- The result of one iteration of the `for` loop in `main` (lines 91–128):
the named intermediate values and the ordered event trace. `pm25Avg`/`pm10Avg`
are the values of the variables `pm25`/`pm10` after the divisions on lines
117–118, which are both printed and published. -/
structure CycleResult where
  burst : BurstState
  pm25Avg : FVal
  pm10Avg : FVal
  line : String
  preCmds : List Cmd
  postCmds : List Cmd
  trace : List Ev
deriving DecidableEq, Repr

/-- One cycle of `main`'s loop. Inputs: the configuration, the wall-clock
time `t1` captured on line 101 (nanosecond instant used only for the sleep
deadline), the result of `sensor.IsAwake()` — a boolean and an error that the
code assigns to `err` and never reads — and the device responses for this
burst. Mirrors lines 91–127: the wake command is issued iff the boolean is
false, regardless of the error; then `t1 := time.Now()`; then the burst; then
both divisions by `float64(*samples)`; then the `%s,%.2f,%.2f\n` line to
stdout; then `pm10mt.Set(pm10); pm25mt.Set(pm25)` in that order; finally,
only when `interval > 1*time.Second`, sleep, block until `t1.Add(interval)`,
wake — where the bare `interval` of lines 123 and 125 is the never-assigned
package-level variable (`intervalVar`, permanently zero), not the
configured flag, so this branch never fires. -/
def cycle (cfg : Config) (t1 : Int) (isAwake : Bool × Option String)
    (reads : Nat → Except String Reading) : CycleResult :=
  let preCmds : List Cmd := if isAwake.1 then [] else [.wake]
  let st := runBurst cfg.unix cfg.samples reads
  let pm25Avg := goDiv st.pm25 cfg.samples
  let pm10Avg := goDiv st.pm10 cfg.samples
  let line := st.ts ++ "," ++ fmtF2 pm25Avg ++ "," ++ fmtF2 pm10Avg ++ "\n"
  let postCmds : List Cmd :=
    if second < intervalVar then [.sleep, .waitUntil (t1 + intervalVar), .wake]
    else []
  { burst := st
    pm25Avg := pm25Avg
    pm10Avg := pm10Avg
    line := line
    preCmds := preCmds
    postCmds := postCmds
    trace :=
      [Ev.isAwakeQuery] ++ preCmds.map Ev.cmd ++ [Ev.captureTime t1]
        ++ (List.range cfg.samples.toNat).map Ev.readCall
        ++ st.logs.map Ev.logLine
        ++ [Ev.stdoutWrite line, Ev.gaugeSet .pm10 pm10Avg, Ev.gaugeSet .pm25 pm25Avg]
        ++ postCmds.map Ev.cmd }

/-- Outcome of process startup (lines 85–89): `sds011.New(*portPath)`
either fails — `log.Fatal(err)` prints the error to stderr and calls
`os.Exit(1)` before the loop, so nothing is ever written to stdout — or
succeeds and the infinite loop runs. -/
structure StartOutcome where
  exitCode : Option Nat
  stdoutLines : List String
  stderrLines : List String
deriving DecidableEq, Repr

/-- `main`'s startup: on `sds011.New` failure, exit code 1, the error on
stderr, nothing on stdout; on success the loop runs (no startup exit, no
startup output). -/
def startup (openRes : Except String Unit) : StartOutcome :=
  match openRes with
  | .error e => { exitCode := some 1, stdoutLines := [], stderrLines := [e] }
  | .ok _ => { exitCode := none, stdoutLines := [], stderrLines := [] }

/-- The stderr log lines the burst produces: one `ERROR: sensor.Get: <err>`
line per failed read, in order. -/
def errLogs (samples : Int) (reads : Nat → Except String Reading) : List String :=
  (List.range samples.toNat).filterMap (fun i =>
    match reads i with
    | .error e => some ("ERROR: sensor.Get: " ++ e)
    | .ok _ => none)

/-- One atomic gauge write. Each prometheus `Gauge.Set` stores one value
atomically, but lines 120–121 are two separate calls with no lock spanning
both gauges. -/
inductive GaugeWrite where
  | setPm10 (v : FVal)
  | setPm25 (v : FVal)
deriving DecidableEq, Repr

/-- The write sequence of one metrics update, in the source's order:
`pm10mt.Set(pm10)` then `pm25mt.Set(pm25)` (lines 120–121). -/
def publishSteps (pm25 pm10 : FVal) : List GaugeWrite :=
  [.setPm10 pm10, .setPm25 pm25]

/-- Apply one atomic write to the gauge pair (pm25 value, pm10 value). -/
def applyWrite (s : FVal × FVal) : GaugeWrite → FVal × FVal
  | .setPm10 v => (s.1, v)
  | .setPm25 v => (v, s.2)

/-- The gauge pair a concurrent scrape observes after the writer has
completed `k` of the update's atomic steps: a reader may run at any point
between the writer's individual `Set` calls, and each read returns the
current pair. -/
def observeDuring (s : FVal × FVal) (steps : List GaugeWrite) (k : Nat) : FVal × FVal :=
  (steps.take k).foldl applyWrite s

/-- The inputs one iteration of the main loop consumes: the wall-clock
instant captured into `t1`, the `sensor.IsAwake()` result, and the device's
responses to the burst's `sensor.Get()` calls. -/
structure CycleInput where
  t1 : Int
  isAwake : Bool × Option String
  reads : Nat → Except String Reading

/-- The stdout lines an execution of the loop produces, one per completed
cycle: each iteration re-declares its locals (`var pm10, pm25 float64`,
`var ts string`, lines 92–93), so a cycle's line is a function of that
cycle's inputs alone. -/
def loopLines (cfg : Config) (ins : List CycleInput) : List String :=
  ins.map (fun ci => (cycle cfg ci.t1 ci.isAwake ci.reads).line)

/-- The exact value of the Go `float64` literal `12.345`:
`6949617174986097 × 2⁻⁴⁹`, slightly above the decimal `12.345`. -/
def q12345 : ℚ := 6949617174986097 / 562949953421312

/-- A concrete device behavior for witnesses: the first read succeeds
(pm25 = 1, pm10 = 2, timestamp 2024-01-01T00:00:00Z), every later read
fails. -/
def wOkFail : Nat → Except String Reading := fun i =>
  if i = 0 then .ok ⟨1, 2, 1704067200⟩ else .error "read timeout"

/-- A concrete device behavior for witnesses: every read fails. -/
def wAllFail : Nat → Except String Reading := fun _ => .error "read timeout"

/-- A concrete device behavior: every read succeeds with the spec's example
measurement values (`12.345` as its exact binary64 value, `8.0`,
2024-01-01T00:00:00Z). -/
def wSpecExample : Nat → Except String Reading := fun _ =>
  .ok ⟨q12345, 8, 1704067200⟩

section BurstLemmas

variable (unix : Bool) (reads : Nat → Except String Reading)

lemma foldl_stepRead_pm25 (l : List Nat) (s : BurstState) :
    (l.foldl (fun t i => stepRead unix t (reads i)) s).pm25
      = s.pm25 + ((l.filterMap fun i => (reads i).toOption).map Reading.pm25).sum := by
  induction l generalizing s with
  | nil => simp
  | cons i l ih =>
    rw [List.foldl_cons, ih]
    cases h : reads i with
    | error e => simp [stepRead, h, Except.toOption]
    | ok p => simp [stepRead, h, Except.toOption, add_assoc]

lemma foldl_stepRead_pm10 (l : List Nat) (s : BurstState) :
    (l.foldl (fun t i => stepRead unix t (reads i)) s).pm10
      = s.pm10 + ((l.filterMap fun i => (reads i).toOption).map Reading.pm10).sum := by
  induction l generalizing s with
  | nil => simp
  | cons i l ih =>
    rw [List.foldl_cons, ih]
    cases h : reads i with
    | error e => simp [stepRead, h, Except.toOption]
    | ok p => simp [stepRead, h, Except.toOption, add_assoc]

lemma foldl_stepRead_readCalls (l : List Nat) (s : BurstState) :
    (l.foldl (fun t i => stepRead unix t (reads i)) s).readCalls
      = s.readCalls + l.length := by
  induction l generalizing s with
  | nil => simp
  | cons i l ih =>
    rw [List.foldl_cons, ih]
    cases h : reads i with
    | error e => simp [stepRead, h]; omega
    | ok p => simp [stepRead, h]; omega

lemma foldl_stepRead_logs (l : List Nat) (s : BurstState) :
    (l.foldl (fun t i => stepRead unix t (reads i)) s).logs
      = s.logs ++ l.filterMap (fun i =>
          match reads i with
          | .error e => some ("ERROR: sensor.Get: " ++ e)
          | .ok _ => none) := by
  induction l generalizing s with
  | nil => simp
  | cons i l ih =>
    rw [List.foldl_cons, ih]
    cases h : reads i with
    | error e => simp [stepRead, h]
    | ok p => simp [stepRead, h]

lemma foldl_stepRead_ts (l : List Nat) (s : BurstState) :
    (l.foldl (fun t i => stepRead unix t (reads i)) s).ts
      = ((l.filterMap fun i => (reads i).toOption).map
          (fun p => tsFormat unix p.timestamp)).getLastD s.ts := by
  induction l generalizing s with
  | nil => simp
  | cons i l ih =>
    rw [List.foldl_cons, ih]
    cases h : reads i with
    | error e =>
      have hnone : (fun j => (reads j).toOption) i = none := by
        simp [h, Except.toOption]
      rw [show List.filterMap (fun j => (reads j).toOption) (i :: l)
            = List.filterMap (fun j => (reads j).toOption) l
          from List.filterMap_cons_none hnone]
      rfl
    | ok p =>
      have hsome : (fun j => (reads j).toOption) i = some p := by
        simp [h, Except.toOption]
      rw [show List.filterMap (fun j => (reads j).toOption) (i :: l)
            = p :: List.filterMap (fun j => (reads j).toOption) l
          from List.filterMap_cons_some hsome,
        List.map_cons, List.getLastD_cons]
      rfl

lemma runBurst_pm25 (samples : Int) :
    (runBurst unix samples reads).pm25
      = ((succReadings samples reads).map Reading.pm25).sum := by
  rw [runBurst, succReadings, foldl_stepRead_pm25]
  simp [initBurst]

lemma runBurst_pm10 (samples : Int) :
    (runBurst unix samples reads).pm10
      = ((succReadings samples reads).map Reading.pm10).sum := by
  rw [runBurst, succReadings, foldl_stepRead_pm10]
  simp [initBurst]

lemma runBurst_readCalls (samples : Int) :
    (runBurst unix samples reads).readCalls = samples.toNat := by
  rw [runBurst, foldl_stepRead_readCalls]
  simp [initBurst]

lemma runBurst_logs (samples : Int) :
    (runBurst unix samples reads).logs = errLogs samples reads := by
  rw [runBurst, foldl_stepRead_logs, errLogs]
  simp [initBurst]

lemma runBurst_ts (samples : Int) :
    (runBurst unix samples reads).ts
      = ((succReadings samples reads).map
          (fun p => tsFormat unix p.timestamp)).getLastD "" := by
  rw [runBurst, succReadings, foldl_stepRead_ts]
  rfl

end BurstLemmas

/-- C1: for every cycle with configured `samples = N ≥ 1`, the emitted
averages are the sums of the successful readings divided by the configured
`N` (never by the success count), and with zero successes both averages are
`0`. -/
theorem c1_divide_by_configured_samples (cfg : Config) (t1 : Int)
    (ia : Bool × Option String) (reads : Nat → Except String Reading)
    (h : 1 ≤ cfg.samples) :
    (cycle cfg t1 ia reads).pm25Avg
      = .finite (((succReadings cfg.samples reads).map Reading.pm25).sum
          / (cfg.samples : ℚ))
    ∧ (cycle cfg t1 ia reads).pm10Avg
      = .finite (((succReadings cfg.samples reads).map Reading.pm10).sum
          / (cfg.samples : ℚ))
    ∧ (succReadings cfg.samples reads = [] →
        (cycle cfg t1 ia reads).pm25Avg = .finite 0
        ∧ (cycle cfg t1 ia reads).pm10Avg = .finite 0) := by
  have hne : (cfg.samples : ℚ) ≠ 0 := by
    exact_mod_cast show cfg.samples ≠ 0 by omega
  have h25 : (cycle cfg t1 ia reads).pm25Avg
      = goDiv (runBurst cfg.unix cfg.samples reads).pm25 (cfg.samples : ℚ) := rfl
  have h10 : (cycle cfg t1 ia reads).pm10Avg
      = goDiv (runBurst cfg.unix cfg.samples reads).pm10 (cfg.samples : ℚ) := rfl
  refine ⟨?_, ?_, ?_⟩
  · rw [h25, runBurst_pm25, goDiv, if_neg hne]
  · rw [h10, runBurst_pm10, goDiv, if_neg hne]
  · intro hk
    constructor
    · rw [h25, runBurst_pm25, hk, goDiv, if_neg hne]
      simp
    · rw [h10, runBurst_pm10, hk, goDiv, if_neg hne]
      simp

/-- Witness for C1: two configured samples, one success (pm25 = 1,
pm10 = 2) and one failure give averages 1/2 and 2/2 = 1 — divided by the
configured 2, not by the success count 1. -/
theorem c1_witness :
    (1 : Int) ≤ 2
    ∧ (cycle ⟨2, false, 0⟩ 0 (true, none) wOkFail).pm25Avg = .finite (1 / 2)
    ∧ (cycle ⟨2, false, 0⟩ 0 (true, none) wOkFail).pm10Avg = .finite 1 := by
  refine ⟨by decide, ?_, ?_⟩
  · have h := (c1_divide_by_configured_samples ⟨2, false, 0⟩ 0 (true, none) wOkFail
      (by decide)).1
    rw [h, show succReadings (Config.mk 2 false 0).samples wOkFail
        = [⟨1, 2, 1704067200⟩] from rfl]
    norm_num
  · have h := (c1_divide_by_configured_samples ⟨2, false, 0⟩ 0 (true, none) wOkFail
      (by decide)).2.1
    rw [h, show succReadings (Config.mk 2 false 0).samples wOkFail
        = [⟨1, 2, 1704067200⟩] from rfl]
    norm_num

lemma cycle_burst_eq (cfg : Config) (t1 : Int) (ia : Bool × Option String)
    (reads : Nat → Except String Reading) :
    (cycle cfg t1 ia reads).burst = runBurst cfg.unix cfg.samples reads := rfl

lemma cycle_pm25Avg_eq (cfg : Config) (t1 : Int) (ia : Bool × Option String)
    (reads : Nat → Except String Reading) :
    (cycle cfg t1 ia reads).pm25Avg
      = goDiv (runBurst cfg.unix cfg.samples reads).pm25 (cfg.samples : ℚ) := rfl

lemma cycle_pm10Avg_eq (cfg : Config) (t1 : Int) (ia : Bool × Option String)
    (reads : Nat → Except String Reading) :
    (cycle cfg t1 ia reads).pm10Avg
      = goDiv (runBurst cfg.unix cfg.samples reads).pm10 (cfg.samples : ℚ) := rfl

lemma cycle_postCmds_eq (cfg : Config) (t1 : Int) (ia : Bool × Option String)
    (reads : Nat → Except String Reading) :
    (cycle cfg t1 ia reads).postCmds = [] := rfl

lemma cycle_preCmds_eq (cfg : Config) (t1 : Int) (ia : Bool × Option String)
    (reads : Nat → Except String Reading) :
    (cycle cfg t1 ia reads).preCmds = if ia.1 then [] else [Cmd.wake] := rfl

lemma cycle_trace_eq (cfg : Config) (t1 : Int) (ia : Bool × Option String)
    (reads : Nat → Except String Reading) :
    (cycle cfg t1 ia reads).trace
      = [Ev.isAwakeQuery] ++ (cycle cfg t1 ia reads).preCmds.map Ev.cmd
        ++ [Ev.captureTime t1]
        ++ (List.range cfg.samples.toNat).map Ev.readCall
        ++ (cycle cfg t1 ia reads).burst.logs.map Ev.logLine
        ++ [Ev.stdoutWrite (cycle cfg t1 ia reads).line,
            Ev.gaugeSet .pm10 (cycle cfg t1 ia reads).pm10Avg,
            Ev.gaugeSet .pm25 (cycle cfg t1 ia reads).pm25Avg]
        ++ (cycle cfg t1 ia reads).postCmds.map Ev.cmd := rfl

/-- C2 (code bug): the configured interval never reaches the sleep logic —
lines 123 and 125 read the never-assigned package-level `interval`
(`intervalVar`, permanently zero), not the `-interval` flag — so every
cycle, whatever interval is configured (here including 30 s, well above the
claimed 1-second threshold), ends with an empty command list: no sleep, no
wait, no wake is ever issued between cycles, and the only power commands in
the trace are the initial wake-check's; the scheduler's events otherwise
follow the claimed order, with the emission events last before the (empty)
sleep phase. -/
theorem c2_configured_interval_never_sleeps (cfg : Config) (t1 : Int)
    (ia : Bool × Option String) (reads : Nat → Except String Reading) :
    (cycle cfg t1 ia reads).postCmds = []
    ∧ (cycle ⟨1, false, 30 * second⟩ t1 ia reads).postCmds = []
    ∧ (cycle cfg t1 ia reads).trace.filter Ev.isPowerCmd
        = (cycle cfg t1 ia reads).preCmds.map Ev.cmd
    ∧ (cycle cfg t1 ia reads).trace
        = [Ev.isAwakeQuery] ++ (cycle cfg t1 ia reads).preCmds.map Ev.cmd
          ++ [Ev.captureTime t1]
          ++ (List.range cfg.samples.toNat).map Ev.readCall
          ++ (cycle cfg t1 ia reads).burst.logs.map Ev.logLine
          ++ [Ev.stdoutWrite (cycle cfg t1 ia reads).line,
              Ev.gaugeSet .pm10 (cycle cfg t1 ia reads).pm10Avg,
              Ev.gaugeSet .pm25 (cycle cfg t1 ia reads).pm25Avg]
          ++ (cycle cfg t1 ia reads).postCmds.map Ev.cmd := by
  refine ⟨cycle_postCmds_eq cfg t1 ia reads,
    cycle_postCmds_eq ⟨1, false, 30 * second⟩ t1 ia reads, ?_,
    cycle_trace_eq cfg t1 ia reads⟩
  rw [cycle_trace_eq, cycle_postCmds_eq, cycle_preCmds_eq]
  obtain ⟨b, err⟩ := ia
  cases b <;>
    simp [Ev.isPowerCmd, List.filter_append, List.filter_map, Function.comp]

/-- C3: every emitted line is
`<ts>,<pm25 to 2 decimals>,<pm10 to 2 decimals>\n`, and on the spec's
example measurement (pm25 = 12.345 as its exact binary64 value, pm10 = 8.0,
timestamp 2024-01-01T00:00:00Z) the line is exactly
`2024-01-01T00:00:00Z,12.35,8.00\n` in RFC3339 mode and
`1704067200,12.35,8.00\n` in unix-epoch mode. -/
theorem c3_line_format (cfg : Config) (t1 : Int) (ia : Bool × Option String)
    (reads : Nat → Except String Reading) :
    (cycle cfg t1 ia reads).line
      = (cycle cfg t1 ia reads).burst.ts ++ ","
        ++ fmtF2 (cycle cfg t1 ia reads).pm25Avg ++ ","
        ++ fmtF2 (cycle cfg t1 ia reads).pm10Avg ++ "\n"
    ∧ (cycle ⟨1, false, 0⟩ 0 (true, none) wSpecExample).line
        = "2024-01-01T00:00:00Z,12.35,8.00\n"
    ∧ (cycle ⟨1, true, 0⟩ 0 (true, none) wSpecExample).line
        = "1704067200,12.35,8.00\n" :=
  ⟨rfl, by with_unfolding_all rfl, by with_unfolding_all rfl⟩

/-- C4: when at least one read in the burst succeeds, the emitted timestamp
string is that of the last successful reading (later failures leave it
unchanged). -/
theorem c4_timestamp_last_success (cfg : Config) (t1 : Int) (ia : Bool × Option String)
    (reads : Nat → Except String Reading) (p : Reading)
    (h : (succReadings cfg.samples reads).getLast? = some p) :
    (cycle cfg t1 ia reads).burst.ts = tsFormat cfg.unix p.timestamp := by
  rw [cycle_burst_eq, runBurst_ts, List.getLastD_eq_getLast?, List.getLast?_map, h]
  rfl

/-- Witness for C4: two samples, the first succeeds with timestamp
2024-01-01T00:00:00Z and the second fails; the emitted timestamp string is
that reading's. -/
theorem c4_witness :
    (succReadings (2 : Int) wOkFail).getLast? = some ⟨1, 2, 1704067200⟩
    ∧ (cycle ⟨2, false, 0⟩ 0 (true, none) wOkFail).burst.ts
        = tsFormat false 1704067200 := by
  have h : (succReadings (2 : Int) wOkFail).getLast? = some ⟨1, 2, 1704067200⟩ := by
    with_unfolding_all rfl
  exact ⟨h, c4_timestamp_last_success ⟨2, false, 0⟩ 0 (true, none) wOkFail
    ⟨1, 2, 1704067200⟩ h⟩

/-- C5: a failed read is logged, contributes nothing to the sums or the
timestamp (they are determined by the successful readings alone), still
consumes one of the `samples` slots (the loop performs exactly `samples`
read calls, no retry), and the cycle still emits its line and updates both
gauges. -/
theorem c5_failed_read_logged_and_skipped (cfg : Config) (t1 : Int)
    (ia : Bool × Option String) (reads : Nat → Except String Reading)
    (j : Nat) (e : String) (hj : (j : Int) < cfg.samples)
    (he : reads j = .error e) :
    ("ERROR: sensor.Get: " ++ e) ∈ (cycle cfg t1 ia reads).burst.logs
    ∧ (cycle cfg t1 ia reads).burst.readCalls = cfg.samples.toNat
    ∧ (cycle cfg t1 ia reads).burst.pm25
        = ((succReadings cfg.samples reads).map Reading.pm25).sum
    ∧ (cycle cfg t1 ia reads).burst.pm10
        = ((succReadings cfg.samples reads).map Reading.pm10).sum
    ∧ (cycle cfg t1 ia reads).burst.ts
        = ((succReadings cfg.samples reads).map
            (fun p => tsFormat cfg.unix p.timestamp)).getLastD ""
    ∧ Ev.stdoutWrite (cycle cfg t1 ia reads).line ∈ (cycle cfg t1 ia reads).trace
    ∧ Ev.gaugeSet .pm10 (cycle cfg t1 ia reads).pm10Avg ∈ (cycle cfg t1 ia reads).trace
    ∧ Ev.gaugeSet .pm25 (cycle cfg t1 ia reads).pm25Avg ∈ (cycle cfg t1 ia reads).trace := by
  refine ⟨?_, ?_, ?_, ?_, ?_, ?_, ?_, ?_⟩
  · rw [cycle_burst_eq, runBurst_logs, errLogs]
    refine List.mem_filterMap.mpr ⟨j, List.mem_range.mpr (by omega), ?_⟩
    rw [he]
  · rw [cycle_burst_eq, runBurst_readCalls]
  · rw [cycle_burst_eq, runBurst_pm25]
  · rw [cycle_burst_eq, runBurst_pm10]
  · rw [cycle_burst_eq, runBurst_ts]
  · rw [cycle_trace_eq]
    simp
  · rw [cycle_trace_eq]
    simp
  · rw [cycle_trace_eq]
    simp

/-- Witness for C5: two samples, the second read fails with
`read timeout`: the error is logged and both budgeted read calls happen. -/
theorem c5_witness :
    ((1 : Nat) : Int) < 2
    ∧ wOkFail 1 = .error "read timeout"
    ∧ ("ERROR: sensor.Get: " ++ "read timeout")
        ∈ (cycle ⟨2, false, 0⟩ 0 (true, none) wOkFail).burst.logs
    ∧ (cycle ⟨2, false, 0⟩ 0 (true, none) wOkFail).burst.readCalls = 2 := by
  have h := c5_failed_read_logged_and_skipped ⟨2, false, 0⟩ 0 (true, none) wOkFail
    1 "read timeout" (by decide) rfl
  exact ⟨by decide, rfl, h.1, h.2.1⟩

/-- C6: if opening the device fails at startup, the process exits with
status 1 (non-zero), the error goes to stderr, and nothing is ever written
to stdout. -/
theorem c6_open_failure_fatal (e : String) :
    (startup (.error e)).exitCode = some 1
    ∧ (startup (.error e)).stdoutLines = []
    ∧ (startup (.error e)).stderrLines = [e]
    ∧ ∃ c, (startup (.error e)).exitCode = some c ∧ 0 < c :=
  ⟨rfl, rfl, rfl, 1, rfl, Nat.one_pos⟩

/-- C7 counterexample: with the gauges holding cycle A's values
(pm25 = 1, pm10 = 2), a reader that runs between the two `Set` calls of
cycle B's update (pm25 = 3, pm10 = 4, written pm10 first as on lines
120–121) observes the pair (1, 4) — pm25 from cycle A with pm10 from
cycle B — so the claimed pair-atomicity fails. -/
theorem c7_counterexample :
    ¬ ∀ k : Nat,
        observeDuring (.finite 1, .finite 2) (publishSteps (.finite 3) (.finite 4)) k
            = ((FVal.finite 1, FVal.finite 2) : FVal × FVal)
        ∨ observeDuring (.finite 1, .finite 2) (publishSteps (.finite 3) (.finite 4)) k
            = (FVal.finite 3, FVal.finite 4) := by
  intro h
  have h1 := h 1
  have hobs : observeDuring (.finite 1, .finite 2) (publishSteps (.finite 3) (.finite 4)) 1
      = ((FVal.finite 1, FVal.finite 4) : FVal × FVal) := rfl
  rw [hobs] at h1
  rcases h1 with h1 | h1
  · exact absurd (FVal.finite.inj (congrArg Prod.snd h1)) (by norm_num)
  · exact absurd (FVal.finite.inj (congrArg Prod.fst h1)) (by norm_num)

/-- C7 amended: each gauge `Set` is individually atomic, so at any point a
reader observes the old pair, the new pair, or the one torn combination
(old pm25 with new pm10, since pm10 is written first); once both writes of
an update are done, every reader observes the new pair until the next
update. -/
theorem c7_amended_per_gauge_atomicity (a25 a10 b25 b10 : FVal) (k : Nat) :
    (observeDuring (a25, a10) (publishSteps b25 b10) k = (a25, a10)
      ∨ observeDuring (a25, a10) (publishSteps b25 b10) k = (a25, b10)
      ∨ observeDuring (a25, a10) (publishSteps b25 b10) k = (b25, b10))
    ∧ observeDuring (a25, a10) (publishSteps b25 b10) (k + 2) = (b25, b10) := by
  have hfull : ∀ n : Nat,
      observeDuring (a25, a10) (publishSteps b25 b10) (n + 2) = (b25, b10) := by
    intro n
    show (((publishSteps b25 b10).take (n + 2)).foldl applyWrite (a25, a10)) = _
    rw [List.take_of_length_le (by simp [publishSteps])]
    rfl
  refine ⟨?_, hfull k⟩
  match k with
  | 0 => exact Or.inl rfl
  | 1 => exact Or.inr (Or.inl rfl)
  | n + 2 => exact Or.inr (Or.inr (hfull n))

lemma cycle_line_eq (cfg : Config) (t1 : Int) (ia : Bool × Option String)
    (reads : Nat → Except String Reading) :
    (cycle cfg t1 ia reads).line
      = (runBurst cfg.unix cfg.samples reads).ts ++ ","
        ++ fmtF2 (goDiv (runBurst cfg.unix cfg.samples reads).pm25 (cfg.samples : ℚ))
        ++ ","
        ++ fmtF2 (goDiv (runBurst cfg.unix cfg.samples reads).pm10 (cfg.samples : ℚ))
        ++ "\n" := rfl

/-- C8: the timestamp string is re-initialized to the empty string every
cycle, so a cycle whose reads all fail emits a line with an empty timestamp
field — a leading bare comma, then the two (zero) averages — and the last
emitted line is a function of the last cycle's inputs alone, never of an
earlier cycle's timestamp. -/
theorem c8_ts_reset_every_cycle (cfg : Config) (ins : List CycleInput)
    (ci : CycleInput) (h1 : 1 ≤ cfg.samples)
    (hfail : ∀ i < cfg.samples.toNat, ∃ e, ci.reads i = .error e) :
    (loopLines cfg (ins ++ [ci])).getLast?
        = some ((cycle cfg ci.t1 ci.isAwake ci.reads).line)
    ∧ (cycle cfg ci.t1 ci.isAwake ci.reads).burst.ts = ""
    ∧ (cycle cfg ci.t1 ci.isAwake ci.reads).line = ",0.00,0.00\n" := by
  have hsucc : succReadings cfg.samples ci.reads = [] := by
    rw [succReadings, List.filterMap_eq_nil_iff]
    intro i hi
    obtain ⟨e, he⟩ := hfail i (List.mem_range.mp hi)
    simp [he, Except.toOption]
  have hne : (cfg.samples : ℚ) ≠ 0 := by
    exact_mod_cast show cfg.samples ≠ 0 by omega
  have hdiv : goDiv 0 (cfg.samples : ℚ) = .finite 0 := by
    rw [goDiv, if_neg hne, zero_div]
  refine ⟨?_, ?_, ?_⟩
  · rw [loopLines, List.map_append, List.map_cons, List.map_nil,
      List.getLast?_concat]
  · rw [cycle_burst_eq, runBurst_ts, hsucc]
    rfl
  · rw [cycle_line_eq, runBurst_ts, runBurst_pm25, runBurst_pm10, hsucc]
    simp only [List.map_nil, List.sum_nil]
    rw [hdiv]
    with_unfolding_all rfl

/-- Witness for C8: two configured samples, both reads failing, give the
line `,0.00,0.00\n` with an empty timestamp string. -/
theorem c8_witness :
    (1 : Int) ≤ 2
    ∧ wAllFail 0 = .error "read timeout"
    ∧ wAllFail 1 = .error "read timeout"
    ∧ (cycle ⟨2, false, 0⟩ 0 (true, none) wAllFail).burst.ts = ""
    ∧ (cycle ⟨2, false, 0⟩ 0 (true, none) wAllFail).line = ",0.00,0.00\n" := by
  have h := c8_ts_reset_every_cycle ⟨2, false, 0⟩ [] ⟨0, (true, none), wAllFail⟩
    (by decide) (fun i _ => ⟨"read timeout", rfl⟩)
  exact ⟨by decide, rfl, rfl, h.2.1, h.2.2⟩

/-- C9: the error returned by `sensor.IsAwake()` is discarded — the cycle's
entire result is the same as if no error had occurred, so it is never logged
or propagated; the wake decision depends only on the returned boolean, and
when that boolean is false (as a failing call returns) a wake command is
issued and the cycle proceeds normally, emitting its line. -/
theorem c9_isawake_error_discarded (cfg : Config) (t1 : Int) (b : Bool) (e : String)
    (reads : Nat → Except String Reading) :
    cycle cfg t1 (b, some e) reads = cycle cfg t1 (b, none) reads
    ∧ (cycle cfg t1 (false, some e) reads).preCmds = [Cmd.wake]
    ∧ (cycle cfg t1 (true, some e) reads).preCmds = []
    ∧ Ev.stdoutWrite (cycle cfg t1 (false, some e) reads).line
        ∈ (cycle cfg t1 (false, some e) reads).trace := by
  refine ⟨rfl, rfl, rfl, ?_⟩
  rw [cycle_trace_eq]
  simp

/-- C10: nothing rejects `samples = 0`: the read loop runs zero times, both
averages are the IEEE result of `0.0/0.0`, i.e. NaN, the emitted line is
`,NaN,NaN\n`, and both gauges are set to NaN. -/
theorem c10_samples_zero_yields_nan (u : Bool) (iv t1 : Int)
    (ia : Bool × Option String) (reads : Nat → Except String Reading) :
    (cycle ⟨0, u, iv⟩ t1 ia reads).burst.readCalls = 0
    ∧ (cycle ⟨0, u, iv⟩ t1 ia reads).pm25Avg = .nan
    ∧ (cycle ⟨0, u, iv⟩ t1 ia reads).pm10Avg = .nan
    ∧ (cycle ⟨0, u, iv⟩ t1 ia reads).line = ",NaN,NaN\n"
    ∧ Ev.gaugeSet .pm10 .nan ∈ (cycle ⟨0, u, iv⟩ t1 ia reads).trace
    ∧ Ev.gaugeSet .pm25 .nan ∈ (cycle ⟨0, u, iv⟩ t1 ia reads).trace := by
  have h25 : (cycle ⟨0, u, iv⟩ t1 ia reads).pm25Avg = .nan := by
    with_unfolding_all rfl
  have h10 : (cycle ⟨0, u, iv⟩ t1 ia reads).pm10Avg = .nan := by
    with_unfolding_all rfl
  refine ⟨rfl, h25, h10, by with_unfolding_all rfl, ?_, ?_⟩
  · rw [cycle_trace_eq, h10]
    simp
  · rw [cycle_trace_eq, h25]
    simp
